import Mathlib

/-!
Verification of the merge orchestrator `scripts/workflow/merge_all_prs.py`.

The Python script is shallowly embedded below: every host/gateway call
(`gh` / `git` subprocess invocation) becomes an input field of a `Gateway`
structure, and each Python function becomes a Lean function of the same
name translated line by line.  Strings returned by the host (review
decisions, merge states, check states/conclusions) stay strings, matching
the string comparisons of the Python code.
-/

namespace MergeAllPrs

open List

/-- Result of `gh pr view --json ...` (`get_pr_details`).  A failed call or
unparsable output returns the empty dict `{}` in Python, modelled as `none`;
`emptyDetails` gives the `.get` defaults Python reads out of `{}`. -/
structure PRDetails where
  isDraft : Bool
  state : String
  mergeStateStatus : String
  mergeable : String
  reviewDecision : String
  deriving DecidableEq, Repr

/-- The field defaults Python obtains via `details.get(key, default)` when
`get_pr_details` returned `{}`: `mergeStateStatus`/`mergeable` default to
`"UNKNOWN"`, `reviewDecision` to `""`, `isDraft`/`state` to falsy/`None`. -/
def emptyDetails : PRDetails :=
  { isDraft := false, state := "", mergeStateStatus := "UNKNOWN",
    mergeable := "UNKNOWN", reviewDecision := "" }

/-- One element of the `gh pr checks --json name,state,conclusion` output. -/
structure CheckRun where
  name : String
  state : String
  conclusion : String
  deriving DecidableEq, Repr

/-- Function `get_check_status`: the input is the outcome of the `gh pr checks` call:
`none` models a non-zero exit code or a JSON decode error, `some checks` a
parsed check list.  Returns the overall status string and the check list,
exactly as the Python function does. -/
def get_check_status (q : Option (List CheckRun)) : String × List CheckRun :=
  match q with
  | none => ("UNKNOWN", [])
  | some checks =>
    if checks.isEmpty then ("SUCCESS", [])
    else
      let has_pending := checks.any fun c => c.state == "PENDING" || c.state == "IN_PROGRESS"
      let has_failure := checks.any fun c =>
        c.conclusion == "FAILURE" || c.conclusion == "ERROR" ||
        c.conclusion == "CANCELLED" || c.conclusion == "TIMED_OUT"
      if has_failure then ("FAILURE", checks)
      else if has_pending then ("PENDING", checks)
      else ("SUCCESS", checks)

/-- Structured form of the `(success, message)` pair `wait_for_checks`
returns: the three return sites of the Python loop with their payloads. -/
inductive WaitResult where
  /-- Python returns True with the message that all checks passed. -/
  | allPassed
  /-- Python returns False with a message naming the checks whose
  conclusion was FAILURE or ERROR. -/
  | checksFailed (names : List String)
  /-- Python returns False with a timeout message naming the elapsed minutes. -/
  | timedOut (minutes : Nat)
  deriving DecidableEq, Repr

/-- The while-True loop body of `wait_for_checks`.  Input `q k` is the outcome
of the k-th `gh pr checks` query.  In Python the loop times out when
`elapsed > timeout_minutes * 60` with `elapsed = 30 * k` (one 30-second
sleep per iteration), i.e. at the first `k > 2 * timeout_minutes`; we count
the remaining iterations `r = 2 * timeout_minutes + 1 - k` down to 0 so the
recursion is structural. -/
def wait_for_checks_go (q : Nat → Option (List CheckRun)) (timeout_minutes : Nat) :
    Nat → Nat → WaitResult
  | _, 0 => .timedOut timeout_minutes
  | k, r + 1 =>
    let (status, checks) := get_check_status (q k)
    if status == "SUCCESS" then .allPassed
    else if status == "FAILURE" then
      .checksFailed ((checks.filter fun c =>
        c.conclusion == "FAILURE" || c.conclusion == "ERROR").map CheckRun.name)
    else wait_for_checks_go q timeout_minutes (k + 1) r

/-- Function `wait_for_checks`: poll every 30 seconds until the aggregate is terminal
or `timeout_minutes * 60` seconds have elapsed. -/
def wait_for_checks (q : Nat → Option (List CheckRun)) (timeout_minutes : Nat) : WaitResult :=
  wait_for_checks_go q timeout_minutes 0 (timeout_minutes * 60 / 30 + 1)

/-- Function `check_review_approval`: the approved flag and message, translated
branch for branch from the Python string comparisons on `reviewDecision`. -/
def check_review_approval (pr : PRDetails) : Bool × String :=
  if pr.reviewDecision == "APPROVED" then (true, "PR approved")
  else if pr.reviewDecision == "CHANGES_REQUESTED" then
    (false, "Changes requested - needs update and re-approval")
  else if pr.reviewDecision == "REVIEW_REQUIRED" then
    (false, "Review required - needs approval")
  else (true, "No review requirement or already approved")

/-- One entry of the `gh run list --json status,conclusion,name` output. -/
structure PipelineRun where
  status : String
  conclusion : String
  name : String
  deriving DecidableEq, Repr

/-- Outcome of the `gh run list` call inside `verify_main_health`: non-zero
exit code, JSON decode error, or a parsed run list. -/
inductive RunListResult where
  | transportError
  | parseError
  | ok (runs : List PipelineRun)
  deriving DecidableEq, Repr

/-- The host responses `verify_main_health` consumes: the result of
`git rev-parse origin/<base>` (`none` models a non-zero exit code) and the
result of `gh run list`. -/
structure TrunkEnv where
  revParse : Option String
  runList : RunListResult
  deriving DecidableEq, Repr

/-- The return sites of `verify_main_health`, one constructor per Python
`return` statement, each carrying the data interpolated into the message. -/
inductive HealthResult where
  /-- Python returns False: the rev-parse of the trunk HEAD failed. -/
  | failedGetHead
  /-- Python returns True: the run-list call exited non-zero, no CI verification. -/
  | noCIVerification (sha : String)
  /-- Python returns True: the run-list output could not be parsed. -/
  | couldNotParse (sha : String)
  /-- Python returns True: the run list is empty. -/
  | noRecentRuns (sha : String)
  /-- Python returns True: the latest run completed with conclusion success. -/
  | ciPassed (name sha : String)
  /-- Python returns False: the latest run completed with a non-success conclusion. -/
  | ciFailed (name conclusion sha : String)
  /-- Python returns True: the latest run has not completed yet. -/
  | ciInProgress (name sha : String)
  deriving DecidableEq, Repr

/-- The boolean component of the pair returned by `verify_main_health`. -/
def HealthResult.healthy : HealthResult → Bool
  | .failedGetHead => false
  | .ciFailed _ _ _ => false
  | _ => true

/-- Python str.strip: drop leading and trailing whitespace. -/
def pyStrip (s : String) : String :=
  ((s.toList.dropWhile Char.isWhitespace).reverse.dropWhile
    Char.isWhitespace).reverse.asString

/-- Function `verify_main_health`, translated return site by return site. -/
def verify_main_health (env : TrunkEnv) : HealthResult :=
  match env.revParse with
  | none => .failedGetHead
  | some out =>
    let commit_sha := ((pyStrip out).toList.take 7).asString
    match env.runList with
    | .transportError => .noCIVerification commit_sha
    | .parseError => .couldNotParse commit_sha
    | .ok [] => .noRecentRuns commit_sha
    | .ok (latest :: _) =>
      if latest.status == "completed" then
        if latest.conclusion == "success" then .ciPassed latest.name commit_sha
        else .ciFailed latest.name latest.conclusion commit_sha
      else .ciInProgress latest.name commit_sha

/-- Outcome of `gh pr update-branch --rebase` (`update_pr_branch`): success,
a failure whose stderr contains "conflict", or any other failure. -/
inductive UpdateResult where
  | ok
  | conflictError
  | otherError (msg : String)
  deriving DecidableEq, Repr

/-- The reason string stored on the skipped item, one
constructor per assignment site in `main` with the interpolated data. -/
inductive SkipReason where
  /-- Reason string: failed to fetch PR details. -/
  | fetchDetailsFailed
  /-- Reason string: PR is a draft. -/
  | isDraft
  /-- Reason string: already merged. -/
  | alreadyMerged
  /-- Reason from `update_pr_branch`: merge conflicts detected, manual resolution required. -/
  | updateConflict
  /-- Reason from `update_pr_branch`: failed to update branch, with the stderr text. -/
  | updateFailed (msg : String)
  /-- Reason string for the DIRTY / CONFLICTING test: merge conflicts. -/
  | mergeConflicts
  /-- the message of `check_review_approval` when it returns `False` -/
  | reviewBlocked (msg : String)
  /-- the message of `wait_for_checks` when it returns `False` -/
  | checksNotOk (w : WaitResult)
  /-- Reason from `merge_pr`: merge failed, with the stderr text. -/
  | mergeFailed (msg : String)
  deriving DecidableEq, Repr

/-- A host mutation issued by the loop: `gh pr update-branch` or
`gh pr merge`. -/
inductive Action where
  | updateBranchCall (n : Nat)
  | mergeCall (n : Nat)
  deriving DecidableEq, Repr

/-- The responses of the host to every call the merge loop can make, indexed by
PR number (and poll count for checks).  `details` is the first
`get_pr_details` call for the item, `detailsAfterUpdate` the re-fetch after
a successful branch update; `checks n k` is the k-th `gh pr checks` query
for PR `n`; `trunk n` the `git`/`gh` responses `verify_main_health`
observes after PR `n` was merged. -/
structure Gateway where
  details : Nat → Option PRDetails
  updateBranch : Nat → UpdateResult
  detailsAfterUpdate : Nat → Option PRDetails
  checks : Nat → Nat → Option (List CheckRun)
  mergeOk : Nat → Bool
  mergeErr : Nat → String
  trunk : Nat → TrunkEnv

/-- What the body of the merge loop decided before reaching the merge step
(lines 558–629 of `main`): skip-and-`continue`, skip-and-`break`, or fall
through to `merge_pr`.  `acts` records the mutation calls made so far
(a branch update, when the item was BEHIND). -/
inductive PreOutcome where
  | skipCont (r : SkipReason)
  | skipHalt (r : SkipReason) (acts : List Action)
  | proceed (acts : List Action)
  deriving DecidableEq, Repr

/-- Lines 603–629 of `main`: the DIRTY/CONFLICTING test, the review gate and
the check poller.  `merge_state` is the (possibly refreshed) value of the
Python variable of that name, `mergeable` the value read from the ORIGINAL
detail fetch (the code never refreshes it), and `details` the dict
`check_review_approval` receives (refreshed when an update happened). -/
def gate_after_update (gw : Gateway) (timeout : Nat) (n : Nat)
    (merge_state mergeable : String) (details : PRDetails)
    (acts : List Action) : PreOutcome :=
  if merge_state == "DIRTY" || mergeable == "CONFLICTING" then
    .skipHalt .mergeConflicts acts
  else
    let (approved, msg) := check_review_approval details
    if !approved then .skipHalt (.reviewBlocked msg) acts
    else
      match wait_for_checks (gw.checks n) timeout with
      | .allPassed => .proceed acts
      | w => .skipHalt (.checksNotOk w) acts

/-- Lines 558–629 of `main`: detail re-fetch, draft test, already-merged
test, BEHIND branch update (with re-fetch of details and `merge_state`,
but not of `mergeable`), then `gate_after_update`. -/
def pre_gate (gw : Gateway) (timeout : Nat) (n : Nat) : PreOutcome :=
  match gw.details n with
  | none => .skipCont .fetchDetailsFailed
  | some details =>
    if details.isDraft then .skipCont .isDraft
    else if details.state == "MERGED" then .skipCont .alreadyMerged
    else if details.mergeStateStatus == "BEHIND" then
      match gw.updateBranch n with
      | .conflictError => .skipHalt .updateConflict [.updateBranchCall n]
      | .otherError msg => .skipHalt (.updateFailed msg) [.updateBranchCall n]
      | .ok =>
        let details2 := (gw.detailsAfterUpdate n).getD emptyDetails
        gate_after_update gw timeout n details2.mergeStateStatus
          details.mergeable details2 [.updateBranchCall n]
    else
      gate_after_update gw timeout n details.mergeStateStatus
        details.mergeable details []

/-- How one loop iteration ended: which list the item was appended to and
whether the loop `continue`d or `break`ed. -/
inductive ItemOutcome where
  /-- appended to `skipped`, `continue` -/
  | skippedCont (r : SkipReason)
  /-- appended to `skipped`, `break` -/
  | skippedHalt (r : SkipReason)
  /-- appended to `merged`, loop continues -/
  | mergedCont
  /-- appended to `merged`, then `break` (unhealthy trunk) -/
  | mergedHalt
  deriving DecidableEq, Repr

/-- Lines 631–650 of `main`: `merge_pr` (a no-op reporting success when
`dry_run`), then `verify_main_health`; an unhealthy trunk `break`s with the
item already in `merged`. -/
def merge_phase (gw : Gateway) (dry_run : Bool) (n : Nat)
    (acts : List Action) : ItemOutcome × List Action :=
  if dry_run then
    if (verify_main_health (gw.trunk n)).healthy then (.mergedCont, acts)
    else (.mergedHalt, acts)
  else if gw.mergeOk n then
    if (verify_main_health (gw.trunk n)).healthy then (.mergedCont, acts ++ [.mergeCall n])
    else (.mergedHalt, acts ++ [.mergeCall n])
  else
    (.skippedHalt (.mergeFailed (gw.mergeErr n)), acts ++ [.mergeCall n])

/-- One full iteration of the merge loop for PR `n`. -/
def process_pr (gw : Gateway) (dry_run : Bool) (timeout : Nat) (n : Nat) :
    ItemOutcome × List Action :=
  match pre_gate gw timeout n with
  | .skipCont r => (.skippedCont r, [])
  | .skipHalt r acts => (.skippedHalt r, acts)
  | .proceed acts => merge_phase gw dry_run n acts

/-- The session state `main` accumulates: the `merged` and `skipped` lists
(in append order), the mutation calls issued, and whether the loop ended
with `break`. -/
structure SessionResult where
  merged : List Nat
  skipped : List (Nat × SkipReason)
  actions : List Action
  halted : Bool
  deriving DecidableEq, Repr

/-- The merge loop of `main` over the discovery-ordered queue of PR
numbers: process items in order, stop at the first `break`. -/
def run_session (gw : Gateway) (dry_run : Bool) (timeout : Nat) :
    List Nat → SessionResult
  | [] => ⟨[], [], [], false⟩
  | n :: rest =>
    match process_pr gw dry_run timeout n with
    | (.skippedCont r, acts) =>
      let s := run_session gw dry_run timeout rest
      ⟨s.merged, (n, r) :: s.skipped, acts ++ s.actions, s.halted⟩
    | (.skippedHalt r, acts) => ⟨[], [(n, r)], acts, true⟩
    | (.mergedCont, acts) =>
      let s := run_session gw dry_run timeout rest
      ⟨n :: s.merged, s.skipped, acts ++ s.actions, s.halted⟩
    | (.mergedHalt, acts) => ⟨[n], [], acts, true⟩

/-- Lines 679–685 of `main`: the process exit status computed from the
final `merged` and `skipped` lists. -/
def exit_code (merged : List Nat) (skipped : List (Nat × SkipReason)) : Nat :=
  if !skipped.isEmpty && merged.isEmpty then 1
  else if !skipped.isEmpty then 2
  else 0

/-- One entry of the `gh pr list` output consumed by `get_open_prs`
(the fields the queue logic reads: number and label names). -/
structure PRSummary where
  number : Nat
  labels : List String
  deriving DecidableEq, Repr

/-- The comparison `get_open_prs` sorts by: ascending PR number. -/
def prNumberLe (a b : PRSummary) : Prop := a.number ≤ b.number

instance : DecidableRel prNumberLe := fun a b => Nat.decLe a.number b.number

instance : IsTotal PRSummary prNumberLe := ⟨fun a b => Nat.le_total a.number b.number⟩

instance : IsTrans PRSummary prNumberLe := ⟨fun _ _ _ => Nat.le_trans⟩

/-- Function `get_open_prs`: `response` is the outcome of
`gh pr list --state open --base <base> --label <label> --json ...`
(the open-state, base-branch and label filters are applied host-side by
those flags; `none` models a non-zero exit or a JSON decode error, which
the function turns into `[]`).  The session-label filter and the ascending
sort by number are applied client-side, in this order, as in the source. -/
def get_open_prs (response : Option (List PRSummary)) (session : Option String) :
    List PRSummary :=
  match response with
  | none => []
  | some prs =>
    let prs := match session with
      | some s => prs.filter fun pr => pr.labels.any fun lbl => lbl == s
      | none => prs
    List.insertionSort prNumberLe prs

/-- Lines 536–538 of `main`: `if args.limit and len(prs) > args.limit:
prs = prs[:args.limit]` (note `args.limit and ...` is false when the limit
is absent or 0). -/
def apply_limit (limit : Option Nat) (prs : List PRSummary) : List PRSummary :=
  match limit with
  | some l => if l ≠ 0 ∧ prs.length > l then prs.take l else prs
  | none => prs

/-! Concrete host fixtures used to instantiate the theorems below. -/

/-- A PR snapshot that passes every readiness gate. -/
def cleanDetails : PRDetails :=
  { isDraft := false, state := "OPEN", mergeStateStatus := "CLEAN",
    mergeable := "MERGEABLE", reviewDecision := "APPROVED" }

/-- A draft PR snapshot. -/
def draftDetails : PRDetails := { cleanDetails with isDraft := true }

/-- A snapshot whose review decision is CHANGES_REQUESTED. -/
def changesRequestedDetails : PRDetails :=
  { cleanDetails with reviewDecision := "CHANGES_REQUESTED" }

/-- A trunk whose latest pipeline run completed successfully. -/
def trunkGood : TrunkEnv :=
  { revParse := some "abc1234", runList := .ok [⟨"completed", "success", "CI"⟩] }

/-- A trunk whose latest pipeline run completed with conclusion failure. -/
def trunkBad : TrunkEnv :=
  { revParse := some "abc1234", runList := .ok [⟨"completed", "failure", "CI"⟩] }

/-- A host on which every PR is clean, approved and checkless, every merge
succeeds, and the trunk stays healthy. -/
def gwClean : Gateway :=
  { details := fun _ => some cleanDetails,
    updateBranch := fun _ => .ok,
    detailsAfterUpdate := fun _ => some cleanDetails,
    checks := fun _ _ => some [],
    mergeOk := fun _ => true,
    mergeErr := fun _ => "",
    trunk := fun _ => trunkGood }

/-- Like `gwClean` but every PR is BEHIND and the branch update hits a
conflict. -/
def gwBehindConflict : Gateway :=
  { gwClean with
    details := fun _ => some { cleanDetails with mergeStateStatus := "BEHIND" },
    updateBranch := fun _ => .conflictError }

/-- Like `gwClean` but the post-merge trunk query reports a completed failed
run. -/
def gwTrunkBad : Gateway := { gwClean with trunk := fun _ => trunkBad }

/-- Like `gwClean` except PR 2 is a draft. -/
def gwMix : Gateway :=
  { gwClean with
    details := fun n => if n = 2 then some draftDetails else some cleanDetails }

/-- Like `gwClean` except every PR is a draft. -/
def gwAllDraft : Gateway := { gwClean with details := fun _ => some draftDetails }

/-- Like `gwClean` except every PR has review decision CHANGES_REQUESTED. -/
def gwChangesRequested : Gateway :=
  { gwClean with details := fun _ => some changesRequestedDetails }

/-- A discovery response with three PRs, two of them carrying the session
label s. -/
def prListFixture : List PRSummary :=
  [⟨3, ["a"]⟩, ⟨1, ["a", "s"]⟩, ⟨2, ["s"]⟩]

/-- A check set with one run still pending and one run concluded FAILURE. -/
def pendingFailChecks : List CheckRun :=
  [⟨"build", "PENDING", ""⟩, ⟨"test", "COMPLETED", "FAILURE"⟩]

/-! Helper lemmas about the session loop. -/

/-- The merged list is a subsequence of the queue: items are merged in
queue order. -/
theorem run_session_merged_sublist (gw : Gateway) (dr : Bool) (t : Nat) :
    ∀ q : List Nat, (run_session gw dr t q).merged <+ q := by
  intro q
  induction q with
  | nil => simp [run_session]
  | cons n rest ih =>
    show (run_session gw dr t (n :: rest)).merged <+ n :: rest
    rw [run_session]
    rcases process_pr gw dr t n with ⟨o, acts⟩
    cases o with
    | skippedCont r => exact ih.cons n
    | skippedHalt r => exact (List.nil_sublist rest).cons n
    | mergedCont => exact ih.cons₂ n
    | mergedHalt => exact (List.nil_sublist rest).cons₂ n

/-- The skipped identifiers form a subsequence of the queue: items are
skipped in queue order. -/
theorem run_session_skipped_sublist (gw : Gateway) (dr : Bool) (t : Nat) :
    ∀ q : List Nat, ((run_session gw dr t q).skipped.map Prod.fst) <+ q := by
  intro q
  induction q with
  | nil => simp [run_session]
  | cons n rest ih =>
    show ((run_session gw dr t (n :: rest)).skipped.map Prod.fst) <+ n :: rest
    rw [run_session]
    rcases process_pr gw dr t n with ⟨o, acts⟩
    cases o with
    | skippedCont r => exact ih.cons₂ n
    | skippedHalt r => exact (List.nil_sublist rest).cons₂ n
    | mergedCont => exact ih.cons n
    | mergedHalt => exact (List.nil_sublist rest).cons n

/-- The processed items (merged together with skipped) are exactly some
initial segment of the queue, up to the interleaving of the two lists. -/
theorem run_session_processed_perm (gw : Gateway) (dr : Bool) (t : Nat) :
    ∀ q : List Nat, ∃ k, k ≤ q.length ∧
      ((run_session gw dr t q).merged ++
        (run_session gw dr t q).skipped.map Prod.fst).Perm (q.take k) := by
  intro q
  induction q with
  | nil => exact ⟨0, Nat.le_refl 0, by simp [run_session]⟩
  | cons n rest ih =>
    obtain ⟨k, hk, hperm⟩ := ih
    rw [run_session]
    rcases process_pr gw dr t n with ⟨o, acts⟩
    cases o with
    | skippedCont r =>
      refine ⟨k + 1, Nat.succ_le_succ hk, ?_⟩
      simp only [List.map_cons, List.take_succ_cons]
      exact List.perm_middle.trans (hperm.cons n)
    | skippedHalt r =>
      exact ⟨1, Nat.succ_le_succ (Nat.zero_le _), by simp⟩
    | mergedCont =>
      refine ⟨k + 1, Nat.succ_le_succ hk, ?_⟩
      simpa using hperm.cons n
    | mergedHalt =>
      exact ⟨1, Nat.succ_le_succ (Nat.zero_le _), by simp⟩

/-- C1: for every session, the merged list and the skipped list are
disjoint, and the items appearing in either list are exactly the first k
queued items for some k: every queued item after that halting index is
absent from both lists. -/
theorem session_prefix_disjoint (gw : Gateway) (dry_run : Bool) (timeout : Nat)
    (queue : List Nat) (hnd : queue.Nodup) :
    ∃ k, k ≤ queue.length ∧
      ((run_session gw dry_run timeout queue).merged ++
        (run_session gw dry_run timeout queue).skipped.map Prod.fst).Perm
        (queue.take k) ∧
      (∀ x ∈ (run_session gw dry_run timeout queue).merged,
        x ∉ (run_session gw dry_run timeout queue).skipped.map Prod.fst) ∧
      (∀ x ∈ queue.drop k,
        x ∉ (run_session gw dry_run timeout queue).merged ∧
        x ∉ (run_session gw dry_run timeout queue).skipped.map Prod.fst) := by
  obtain ⟨k, hk, hperm⟩ := run_session_processed_perm gw dry_run timeout queue
  have htd : Nodup (queue.take k ++ queue.drop k) := by
    rw [List.take_append_drop]; exact hnd
  have hdisj := (List.nodup_append.mp htd).2.2
  have hnodup : ((run_session gw dry_run timeout queue).merged ++
      (run_session gw dry_run timeout queue).skipped.map Prod.fst).Nodup :=
    hperm.nodup_iff.mpr ((List.take_sublist k queue).nodup hnd)
  refine ⟨k, hk, hperm, fun x hx => (List.nodup_append.mp hnodup).2.2 hx, ?_⟩
  intro x hxd
  constructor
  · intro hxm
    exact hdisj (hperm.mem_iff.mp (List.mem_append_left _ hxm)) hxd
  · intro hxs
    exact hdisj (hperm.mem_iff.mp (List.mem_append_right _ hxs)) hxd

/-- Witness for C1 at a concrete session: the host merges PR 1, reports an
unhealthy trunk, and the loop halts leaving PR 2 untouched. -/
theorem session_prefix_disjoint_witness :
    ∃ k, k ≤ ([1, 2] : List Nat).length ∧
      ((run_session gwTrunkBad false 0 [1, 2]).merged ++
        (run_session gwTrunkBad false 0 [1, 2]).skipped.map Prod.fst).Perm
        (([1, 2] : List Nat).take k) ∧
      (∀ x ∈ (run_session gwTrunkBad false 0 [1, 2]).merged,
        x ∉ (run_session gwTrunkBad false 0 [1, 2]).skipped.map Prod.fst) ∧
      (∀ x ∈ ([1, 2] : List Nat).drop k,
        x ∉ (run_session gwTrunkBad false 0 [1, 2]).merged ∧
        x ∉ (run_session gwTrunkBad false 0 [1, 2]).skipped.map Prod.fst) :=
  session_prefix_disjoint gwTrunkBad false 0 [1, 2] (by decide)

/-- C2: the dry-run flag is claimed to suppress both mutation actions, but
the code only guards `merge_pr` with it: on a BEHIND item the session
invokes the branch-update mutation even in dry-run mode (despite its own
banner that no changes will be made).  This theorem evaluates the code at
the failing input: dry-run true, one BEHIND PR. -/
theorem dry_run_invokes_update_branch :
    Action.updateBranchCall 1 ∈ (run_session gwBehindConflict true 0 [1]).actions := by
  decide

/-- Counterexample to C3 as stated: on the concrete host `gwTrunkBad`
(merge of PR 1 succeeds, the post-merge trunk query reports an explicitly
failed completed run) the session halts, but the condition is NOT recorded
as a skip: the skipped list stays empty and PR 1 stays in the merged
list. -/
theorem trunk_unhealthy_not_recorded_as_skip :
    (verify_main_health (gwTrunkBad.trunk 1)).healthy = false ∧
    (run_session gwTrunkBad false 0 [1, 2]).halted = true ∧
    (run_session gwTrunkBad false 0 [1, 2]).merged = [1] ∧
    (run_session gwTrunkBad false 0 [1, 2]).skipped = [] := by
  decide

/-- C3 amended: when an item passes every gate, its merge succeeds, and the
post-merge trunk-health verification reports an explicitly failed completed
run, the session halts leaving the rest of the queue untouched; the item
remains recorded as merged and no skip entry is recorded for the
condition. -/
theorem trunk_unhealthy_halt_merged (gw : Gateway) (dry_run : Bool)
    (timeout : Nat) (n : Nat) (rest : List Nat) (acts : List Action)
    (nm concl sha : String)
    (hpre : pre_gate gw timeout n = .proceed acts)
    (hmerge : dry_run = true ∨ gw.mergeOk n = true)
    (hbad : verify_main_health (gw.trunk n) = .ciFailed nm concl sha) :
    (run_session gw dry_run timeout (n :: rest)).merged = [n] ∧
    (run_session gw dry_run timeout (n :: rest)).skipped = [] ∧
    (run_session gw dry_run timeout (n :: rest)).halted = true := by
  have hh : (verify_main_health (gw.trunk n)).healthy = false := by
    rw [hbad]; rfl
  rw [run_session, process_pr, hpre]
  cases dry_run with
  | true => simp [merge_phase, hh]
  | false =>
    rcases hmerge with h | h
    · exact absurd h (by simp)
    · simp [merge_phase, hh, h]

/-- Witness for C3 amended at the concrete host `gwTrunkBad`. -/
theorem trunk_unhealthy_halt_merged_witness :
    (run_session gwTrunkBad false 0 [1, 2]).merged = [1] ∧
    (run_session gwTrunkBad false 0 [1, 2]).skipped = [] ∧
    (run_session gwTrunkBad false 0 [1, 2]).halted = true :=
  trunk_unhealthy_halt_merged gwTrunkBad false 0 1 [2] []
    "CI" "failure" "abc1234" (by decide) (Or.inr rfl) (by decide)

/-- C4: the exit-status mapping of the session: 0 when every discovered
item was merged and none skipped, 1 when nothing was merged and at least
one item was skipped, 2 when some were merged and some skipped. -/
theorem exit_code_mapping (gw : Gateway) (dry_run : Bool) (timeout : Nat)
    (queue : List Nat) :
    ((∀ x ∈ queue, x ∈ (run_session gw dry_run timeout queue).merged) ∧
        (run_session gw dry_run timeout queue).skipped = [] →
      exit_code (run_session gw dry_run timeout queue).merged
        (run_session gw dry_run timeout queue).skipped = 0) ∧
    ((run_session gw dry_run timeout queue).merged = [] ∧
        (run_session gw dry_run timeout queue).skipped ≠ [] →
      exit_code (run_session gw dry_run timeout queue).merged
        (run_session gw dry_run timeout queue).skipped = 1) ∧
    ((run_session gw dry_run timeout queue).merged ≠ [] ∧
        (run_session gw dry_run timeout queue).skipped ≠ [] →
      exit_code (run_session gw dry_run timeout queue).merged
        (run_session gw dry_run timeout queue).skipped = 2) := by
  refine ⟨?_, ?_, ?_⟩ <;> rintro ⟨h1, h2⟩
  · rw [exit_code, h2]; simp
  · obtain ⟨p, l, hs⟩ := List.exists_cons_of_ne_nil h2
    rw [exit_code, h1, hs]; simp
  · obtain ⟨p, l, hs⟩ := List.exists_cons_of_ne_nil h2
    obtain ⟨m, lm, hm⟩ := List.exists_cons_of_ne_nil h1
    rw [exit_code, hs, hm]; simp

/-- Witness for C4 at a concrete mixed session: PR 1 merges, PR 2 is a
draft and is skipped, so the exit status is 2. -/
theorem exit_code_mapping_witness :
    exit_code (run_session gwMix false 0 [1, 2]).merged
      (run_session gwMix false 0 [1, 2]).skipped = 2 :=
  (exit_code_mapping gwMix false 0 [1, 2]).2.2 ⟨by decide, by decide⟩

/-- C5: the aggregate check status is SUCCESS on an empty check set;
otherwise FAILURE as soon as any conclusion is FAILURE, ERROR, CANCELLED or
TIMED_OUT (failure takes precedence over pending); otherwise PENDING when
any state is PENDING or IN_PROGRESS; otherwise SUCCESS. -/
theorem check_aggregation (checks : List CheckRun) :
    (checks = [] → (get_check_status (some checks)).1 = "SUCCESS") ∧
    ((∃ c ∈ checks, c.conclusion = "FAILURE" ∨ c.conclusion = "ERROR" ∨
        c.conclusion = "CANCELLED" ∨ c.conclusion = "TIMED_OUT") →
      (get_check_status (some checks)).1 = "FAILURE") ∧
    ((∀ c ∈ checks, ¬(c.conclusion = "FAILURE" ∨ c.conclusion = "ERROR" ∨
        c.conclusion = "CANCELLED" ∨ c.conclusion = "TIMED_OUT")) →
      (∃ c ∈ checks, c.state = "PENDING" ∨ c.state = "IN_PROGRESS") →
      (get_check_status (some checks)).1 = "PENDING") ∧
    (checks ≠ [] →
      (∀ c ∈ checks, ¬(c.conclusion = "FAILURE" ∨ c.conclusion = "ERROR" ∨
        c.conclusion = "CANCELLED" ∨ c.conclusion = "TIMED_OUT")) →
      (∀ c ∈ checks, ¬(c.state = "PENDING" ∨ c.state = "IN_PROGRESS")) →
      (get_check_status (some checks)).1 = "SUCCESS") := by
  have hfail_true : ∀ (h : ∃ c ∈ checks, c.conclusion = "FAILURE" ∨
      c.conclusion = "ERROR" ∨ c.conclusion = "CANCELLED" ∨
      c.conclusion = "TIMED_OUT"),
      (checks.any fun c => c.conclusion == "FAILURE" || c.conclusion == "ERROR" ||
        c.conclusion == "CANCELLED" || c.conclusion == "TIMED_OUT") = true := by
    intro h
    simp only [List.any_eq_true, Bool.or_eq_true, beq_iff_eq]
    obtain ⟨c, hc, hor⟩ := h
    exact ⟨c, hc, by tauto⟩
  have hfail_false : ∀ (h : ∀ c ∈ checks, ¬(c.conclusion = "FAILURE" ∨
      c.conclusion = "ERROR" ∨ c.conclusion = "CANCELLED" ∨
      c.conclusion = "TIMED_OUT")),
      (checks.any fun c => c.conclusion == "FAILURE" || c.conclusion == "ERROR" ||
        c.conclusion == "CANCELLED" || c.conclusion == "TIMED_OUT") = false := by
    intro h
    rw [List.any_eq_false]
    intro c hc
    have := h c hc
    simp only [Bool.or_eq_true, beq_iff_eq]
    tauto
  refine ⟨?_, ?_, ?_, ?_⟩
  · rintro rfl; rfl
  · intro hex
    have hne : checks.isEmpty = false := by
      obtain ⟨c, hc, _⟩ := hex
      cases checks with
      | nil => cases hc
      | cons a l => rfl
    simp [get_check_status, hne, hfail_true hex]
  · intro hall hex
    have hne : checks.isEmpty = false := by
      obtain ⟨c, hc, _⟩ := hex
      cases checks with
      | nil => cases hc
      | cons a l => rfl
    have hp : (checks.any fun c =>
        c.state == "PENDING" || c.state == "IN_PROGRESS") = true := by
      simp only [List.any_eq_true, Bool.or_eq_true, beq_iff_eq]
      obtain ⟨c, hc, hor⟩ := hex
      exact ⟨c, hc, by tauto⟩
    simp [get_check_status, hne, hfail_false hall, hp]
  · intro hne0 hall hstate
    have hne : checks.isEmpty = false := by
      cases checks with
      | nil => exact absurd rfl hne0
      | cons a l => rfl
    have hp : (checks.any fun c =>
        c.state == "PENDING" || c.state == "IN_PROGRESS") = false := by
      rw [List.any_eq_false]
      intro c hc
      have := hstate c hc
      simp only [Bool.or_eq_true, beq_iff_eq]
      tauto
    simp [get_check_status, hne, hfail_false hall, hp]

/-- Witness for C5 at the check set of the spec example: one FAILURE
conclusion next to one PENDING state yields aggregate FAILURE, not
PENDING. -/
theorem check_aggregation_witness :
    (get_check_status (some pendingFailChecks)).1 = "FAILURE" :=
  (check_aggregation pendingFailChecks).2.1 (by decide)

/-- C6: on an otherwise-ready snapshot, a review decision of
CHANGES_REQUESTED or REVIEW_REQUIRED blocks fatally (the item is skipped
with the review message and the session halts with nothing merged), while
APPROVED or an absent decision passes the review gate (absence of a
decision is not a block). -/
theorem review_gate (gw : Gateway) (dry_run : Bool) (timeout : Nat) (n : Nat)
    (rest : List Nat) (d : PRDetails)
    (hdet : gw.details n = some d) (hdraft : d.isDraft = false)
    (hstate : d.state ≠ "MERGED") (hms : d.mergeStateStatus = "CLEAN")
    (hmg : d.mergeable ≠ "CONFLICTING") :
    ((d.reviewDecision = "CHANGES_REQUESTED" ∨ d.reviewDecision = "REVIEW_REQUIRED") →
      (check_review_approval d).1 = false ∧
      run_session gw dry_run timeout (n :: rest) =
        ⟨[], [(n, .reviewBlocked (check_review_approval d).2)], [], true⟩) ∧
    ((d.reviewDecision = "APPROVED" ∨ d.reviewDecision = "") →
      (check_review_approval d).1 = true ∧
      ∀ msg acts, pre_gate gw timeout n ≠ .skipHalt (.reviewBlocked msg) acts) := by
  have hmgf : (d.mergeable == "CONFLICTING") = false := beq_eq_false_iff_ne.mpr hmg
  have hpre : pre_gate gw timeout n =
      gate_after_update gw timeout n d.mergeStateStatus d.mergeable d [] := by
    rw [pre_gate, hdet]
    simp only [hdraft, Bool.false_eq_true, if_false, beq_iff_eq, hms]
    rw [if_neg hstate, if_neg (by decide : ¬("CLEAN" = "BEHIND"))]
  constructor
  · intro hrd
    have hcr : (check_review_approval d).1 = false := by
      rcases hrd with h | h <;> rw [check_review_approval, h] <;> rfl
    refine ⟨hcr, ?_⟩
    have hgate : pre_gate gw timeout n =
        .skipHalt (.reviewBlocked (check_review_approval d).2) [] := by
      rw [hpre, gate_after_update, hms, hmgf]
      have hdirty : (("CLEAN" == "DIRTY") || false) = false := by decide
      rw [hdirty]
      simp only [Bool.false_eq_true, if_false]
      rw [hcr]
      rfl
    rw [run_session, process_pr, hgate]
  · intro hap
    have hca : (check_review_approval d).1 = true := by
      rcases hap with h | h <;> rw [check_review_approval, h] <;> rfl
    refine ⟨hca, ?_⟩
    intro msg acts hcontra
    rw [hpre, gate_after_update, hms, hmgf] at hcontra
    have hdirty : (("CLEAN" == "DIRTY") || false) = false := by decide
    rw [hdirty] at hcontra
    simp only [Bool.false_eq_true, if_false] at hcontra
    rw [hca] at hcontra
    simp only [Bool.not_true, Bool.false_eq_true, if_false] at hcontra
    cases hw : wait_for_checks (gw.checks n) timeout <;> rw [hw] at hcontra <;>
      simp at hcontra

/-- Witness for C6 at a concrete host where PR 1 has review decision
CHANGES_REQUESTED: the session halts with the review skip and nothing
merged. -/
theorem review_gate_witness :
    run_session gwChangesRequested false 0 [1, 2] =
      ⟨[], [(1, .reviewBlocked "Changes requested - needs update and re-approval")],
        [], true⟩ :=
  ((review_gate gwChangesRequested false 0 1 [2] changesRequestedDetails
    rfl rfl (by decide) rfl (by decide)).1 (Or.inl rfl)).2

/-- C7: a detail-fetch failure, a draft flag, and a lifecycle state of
MERGED are each recorded as a skip with their respective reason and the
loop continues: the rest of the queue is processed exactly as if the item
were not there, and the halted flag is whatever the rest produces — these
conditions never halt the session, regardless of position. -/
theorem nonfatal_skips_continue (gw : Gateway) (dry_run : Bool) (timeout : Nat)
    (n : Nat) (rest : List Nat) :
    (gw.details n = none →
      run_session gw dry_run timeout (n :: rest) =
        { merged := (run_session gw dry_run timeout rest).merged,
          skipped := (n, SkipReason.fetchDetailsFailed) ::
            (run_session gw dry_run timeout rest).skipped,
          actions := (run_session gw dry_run timeout rest).actions,
          halted := (run_session gw dry_run timeout rest).halted }) ∧
    (∀ d, gw.details n = some d → d.isDraft = true →
      run_session gw dry_run timeout (n :: rest) =
        { merged := (run_session gw dry_run timeout rest).merged,
          skipped := (n, SkipReason.isDraft) ::
            (run_session gw dry_run timeout rest).skipped,
          actions := (run_session gw dry_run timeout rest).actions,
          halted := (run_session gw dry_run timeout rest).halted }) ∧
    (∀ d, gw.details n = some d → d.isDraft = false → d.state = "MERGED" →
      run_session gw dry_run timeout (n :: rest) =
        { merged := (run_session gw dry_run timeout rest).merged,
          skipped := (n, SkipReason.alreadyMerged) ::
            (run_session gw dry_run timeout rest).skipped,
          actions := (run_session gw dry_run timeout rest).actions,
          halted := (run_session gw dry_run timeout rest).halted }) := by
  refine ⟨?_, ?_, ?_⟩
  · intro h
    rw [run_session, process_pr, pre_gate, h]
    simp
  · intro d h hdraft
    rw [run_session, process_pr, pre_gate, h]
    simp [hdraft]
  · intro d h hdraft hstate
    rw [run_session, process_pr, pre_gate, h]
    simp [hdraft, hstate]

/-- Witness for C7 at a concrete host where every PR is a draft: both items
are skipped non-fatally and the session completes without halting. -/
theorem nonfatal_skips_continue_witness :
    run_session gwAllDraft false 0 [1, 2] =
      ⟨[], [(1, .isDraft), (2, .isDraft)], [], false⟩ :=
  ((nonfatal_skips_continue gwAllDraft false 0 1 [2]).2.1 draftDetails rfl
    rfl).trans (by decide)

/-- C8: the work queue is the session-label filtering of the discovered
items, sorted ascending by identifier, truncated (as a take) when a
positive limit is set, and the loop processes items in exactly that order:
the merged and skipped lists are subsequences of the queue, which is never
re-sorted. -/
theorem discovery_queue_order (response : List PRSummary) (session : Option String)
    (limit : Option Nat) (gw : Gateway) (dry_run : Bool) (timeout : Nat) :
    Sorted prNumberLe (get_open_prs (some response) session) ∧
    (get_open_prs (some response) session).Perm
      (match session with
       | some s => response.filter fun pr => pr.labels.any fun lbl => lbl == s
       | none => response) ∧
    (∃ m, apply_limit limit (get_open_prs (some response) session) =
      (get_open_prs (some response) session).take m) ∧
    (∀ l, limit = some l → l ≠ 0 →
      (apply_limit limit (get_open_prs (some response) session)).length ≤ l) ∧
    (run_session gw dry_run timeout
        ((apply_limit limit (get_open_prs (some response) session)).map
          PRSummary.number)).merged <+
      (apply_limit limit (get_open_prs (some response) session)).map
        PRSummary.number ∧
    (run_session gw dry_run timeout
        ((apply_limit limit (get_open_prs (some response) session)).map
          PRSummary.number)).skipped.map Prod.fst <+
      (apply_limit limit (get_open_prs (some response) session)).map
        PRSummary.number := by
  refine ⟨?_, ?_, ?_, ?_, ?_, ?_⟩
  · cases session with
    | none => exact List.sorted_insertionSort prNumberLe _
    | some s => exact List.sorted_insertionSort prNumberLe _
  · cases session with
    | none => exact List.perm_insertionSort prNumberLe _
    | some s => exact List.perm_insertionSort prNumberLe _
  · cases limit with
    | none =>
      exact ⟨(get_open_prs (some response) session).length, by simp [apply_limit]⟩
    | some l =>
      by_cases h : l ≠ 0 ∧ (get_open_prs (some response) session).length > l
      · exact ⟨l, by simp [apply_limit, h]⟩
      · exact ⟨(get_open_prs (some response) session).length, by
          simp [apply_limit, h]⟩
  · intro l hl hl0
    subst hl
    by_cases h : (get_open_prs (some response) session).length > l
    · rw [apply_limit, if_pos ⟨hl0, h⟩]
      simp [List.length_take]
    · rw [apply_limit, if_neg (by tauto)]
      omega
  · exact run_session_merged_sublist gw dry_run timeout _
  · exact run_session_skipped_sublist gw dry_run timeout _

/-- Witness for C8 at the concrete discovery fixture with session label s
and limit 1. -/
theorem discovery_queue_order_witness :
    (apply_limit (some 1) (get_open_prs (some prListFixture) (some "s"))).length ≤ 1 :=
  (discovery_queue_order prListFixture (some "s") (some 1) gwClean false 0).2.2.2.1
    1 rfl (by decide)

/-- Counterexample to C9 as stated: the code also judges the trunk
unhealthy when the rev-parse of the trunk HEAD fails, a situation in which
no explicitly failed completed run is observed (the run list observed here
is empty). -/
theorem trunk_health_not_only_failed_run :
    ¬ (∀ env : TrunkEnv, (verify_main_health env).healthy = false →
        ∃ latest rest, env.runList = .ok (latest :: rest) ∧
          latest.status = "completed" ∧ latest.conclusion ≠ "success") := by
  intro h
  obtain ⟨latest, rest, heq, -, -⟩ :=
    h { revParse := none, runList := .ok [] } (by decide)
  simp at heq

/-- C9 amended: the trunk is judged healthy when no matching run exists or
the most recent run is not yet completed; it is judged unhealthy exactly
when an explicitly failed (completed, non-success) run is observed or when
resolving the latest trunk commit identifier fails. -/
theorem trunk_health_amended (env : TrunkEnv) :
    (verify_main_health env).healthy = false ↔
      env.revParse = none ∨
      ∃ latest rest, env.runList = .ok (latest :: rest) ∧
        latest.status = "completed" ∧ latest.conclusion ≠ "success" := by
  obtain ⟨rp, rl⟩ := env
  cases rp with
  | none => simp [verify_main_health, HealthResult.healthy]
  | some out =>
    cases rl with
    | transportError => simp [verify_main_health, HealthResult.healthy]
    | parseError => simp [verify_main_health, HealthResult.healthy]
    | ok runs =>
      cases runs with
      | nil => simp [verify_main_health, HealthResult.healthy]
      | cons latest rest2 =>
        by_cases hs : latest.status = "completed"
        · by_cases hc : latest.conclusion = "success"
          · simp [verify_main_health, HealthResult.healthy, beq_iff_eq, hs, hc]
          · simp [verify_main_health, HealthResult.healthy, beq_iff_eq, hs, hc]
        · simp [verify_main_health, HealthResult.healthy, beq_iff_eq, hs]

/-- On an all-errors query stream every iteration of the poll loop keeps
polling until the timeout fires. -/
theorem wait_go_all_none (q : Nat → Option (List CheckRun)) (tm : Nat)
    (h : ∀ k, q k = none) :
    ∀ r k, wait_for_checks_go q tm k r = .timedOut tm := by
  intro r
  induction r with
  | zero => intro k; rfl
  | succ r ih =>
    intro k
    rw [wait_for_checks_go, h k]
    exact ih (k + 1)

/-- A checks-failed return of the poll loop can only come from an
iteration whose query parsed and aggregated to FAILURE. -/
theorem wait_go_failed_from_query (q : Nat → Option (List CheckRun)) (tm : Nat) :
    ∀ r k names, wait_for_checks_go q tm k r = .checksFailed names →
      ∃ j cs, q j = some cs ∧ (get_check_status (some cs)).1 = "FAILURE" := by
  intro r
  induction r with
  | zero =>
    intro k names h
    rw [wait_for_checks_go] at h
    exact WaitResult.noConfusion h
  | succ r ih =>
    intro k names h
    rw [wait_for_checks_go] at h
    cases hq : q k with
    | none =>
      rw [hq] at h
      exact ih (k + 1) names h
    | some cs =>
      rw [hq] at h
      rcases hgc : get_check_status (some cs) with ⟨st, chks⟩
      rw [hgc] at h
      by_cases hsu : st = "SUCCESS"
      · subst hsu
        exact WaitResult.noConfusion h
      · have hsub : (st == "SUCCESS") = false := beq_eq_false_iff_ne.mpr hsu
        by_cases hfa : st = "FAILURE"
        · refine ⟨k, cs, hq, ?_⟩
          rw [hgc]
          exact hfa
        · have hfab : (st == "FAILURE") = false := beq_eq_false_iff_ne.mpr hfa
          simp only [hsub, hfab, Bool.false_eq_true, if_false] at h
          exact ih (k + 1) names h

/-- C10: a check-status query that fails at the transport level or returns
unparsable output aggregates to UNKNOWN, which is neither SUCCESS nor
FAILURE, so the poller keeps polling; a stream of such errors can only
surface as the timeout failure, and a checks-failed result always points
at a successfully parsed query whose aggregate was FAILURE. -/
theorem poller_error_only_timeout (q : Nat → Option (List CheckRun)) (tm : Nat) :
    (get_check_status none).1 ≠ "SUCCESS" ∧
    (get_check_status none).1 ≠ "FAILURE" ∧
    ((∀ k, q k = none) → wait_for_checks q tm = .timedOut tm) ∧
    (∀ names, wait_for_checks q tm = .checksFailed names →
      ∃ k cs, q k = some cs ∧ (get_check_status (some cs)).1 = "FAILURE") := by
  refine ⟨by decide, by decide, ?_, ?_⟩
  · intro h
    exact wait_go_all_none q tm h _ 0
  · intro names h
    exact wait_go_failed_from_query q tm _ 0 names h

/-- Witness for C10: with every query erroring and a zero timeout the
poller returns the timeout failure. -/
theorem poller_error_only_timeout_witness :
    wait_for_checks (fun _ => none) 0 = .timedOut 0 :=
  (poller_error_only_timeout (fun _ => none) 0).2.2.1 (fun _ => rfl)

end MergeAllPrs

